import Mathlib

/-!
Syslog listener configuration

A shallow embedding of `internal/component/loki/source/syslog/types.go`:
the `ListenerConfig` record, its defaulting (`SetToDefault`), its validation
(`Validate`) and its conversion into the listener runtime's parameter record
(`Convert`).

Modelling conventions.

* Go `string` is Lean `String`: a sequence of Unicode code points, that is, a
  Go string holding valid UTF-8.  `==` / `!=` on strings is equality of the
  sequences, `+` is concatenation.
* `time.Duration` (an `int64`) and `int` are `Int`; the code only copies and
  never computes with them, so no wrap-around is involved.
* A Go `error` is `Option String`: `none` is `nil`, `some msg` is an error
  whose `Error()` text is `msg`.
* A function that may `panic` returns `Except String _`; `.error msg` is
  `panic(msg)`.
* Types and functions of other packages that the file only passes around
  (the TLS block and its `Convert` method) are parameters.
-/

namespace syslog

/-! ## Go maps -/

/-- Go `map[string]string` value.  `nil` is the nil map.  `alloc m` is an
allocated map; its entries have pairwise distinct keys and are listed in the
order in which a `range` loop over the map visits them. -/
inductive GoMap where
  | nil : GoMap
  | alloc (m : AList (fun _ : String => String)) : GoMap

namespace GoMap

/-- Entries of the map in the order a `range` loop yields them; a nil map
yields nothing. -/
def range : GoMap → List (Sigma (fun _ : String => String))
  | nil => []
  | alloc m => m.entries

/-- Go `len(m)`. -/
def len (m : GoMap) : Nat := m.range.length

/-- Go `v, ok := m[k]`: `some v` when the key is present. -/
def lookup (k : String) : GoMap → Option String
  | nil => none
  | alloc m => m.lookup k

end GoMap

end syslog

/-! ## `strconv.Quote` and the `fmt` verbs used by `Validate` -/

namespace strconv

/-- Digit table `lowerhex` of package `strconv`. -/
def lowerhex : List Char := "0123456789abcdef".toList

/-- Entry `lowerhex[n]` for a nibble `n`. -/
def hexDigit (n : Nat) : Char := lowerhex.getD (n % 16) (Char.ofNat 48)

/-- Function `strconv.IsPrint`.  Code points up to U+00FF are decided by the
fast path of the library; for the others the library searches its Unicode
tables, which are the parameter `isPrintTable`. -/
def IsPrint (isPrintTable : Nat → Bool) (r : Nat) : Bool :=
  if r ≤ 0xFF then
    if 0x20 ≤ r ∧ r ≤ 0x7E then true
    else if 0xA1 ≤ r ∧ r ≤ 0xFF then r != 0xAD
    else false
  else isPrintTable r

/-- Function `utf8.ValidRune`. -/
def ValidRune (r : Nat) : Bool :=
  r < 0xD800 || (0xDFFF < r && r ≤ 0x10FFFF)

/-- Hexadecimal digits of `r`, most significant first, for the shifts
`4 * (n - 1), …, 4, 0`. -/
def hexDigits (r : Nat) : Nat → String
  | 0 => ""
  | n + 1 => String.singleton (hexDigit (r / 16 ^ n)) ++ hexDigits r n

/-- Function `appendEscapedRune` of package `strconv`, for the double quote and
with `ASCIIonly = graphicOnly = false` (the call made by `Quote`). -/
def appendEscapedRune (isPrintTable : Nat → Bool) (buf : String) (r : Nat) : String :=
  if r = 0x22 ∨ r = 0x5C then (buf.push (Char.ofNat 0x5C)).push (Char.ofNat r)
  else if IsPrint isPrintTable r then buf.push (Char.ofNat r)
  else if r = 0x07 then buf ++ "\\a"
  else if r = 0x08 then buf ++ "\\b"
  else if r = 0x0C then buf ++ "\\f"
  else if r = 0x0A then buf ++ "\\n"
  else if r = 0x0D then buf ++ "\\r"
  else if r = 0x09 then buf ++ "\\t"
  else if r = 0x0B then buf ++ "\\v"
  else if r < 0x20 ∨ r = 0x7F then buf ++ "\\x" ++ hexDigits r 2
  else if !ValidRune r then buf ++ "\\u" ++ hexDigits 0xFFFD 4
  else if r < 0x10000 then buf ++ "\\u" ++ hexDigits r 4
  else buf ++ "\\U" ++ hexDigits r 8

/-- Function `strconv.Quote`: the string as a double-quoted Go string literal. -/
def Quote (isPrintTable : Nat → Bool) (s : String) : String :=
  (s.toList.foldl (fun buf c => appendEscapedRune isPrintTable buf c.toNat) "\"").push
    (Char.ofNat 0x22)

end strconv

namespace fmt

/-- Verb `%s` applied to a string operand: the string itself. -/
def verbS (s : String) : String := s

/-- Verb `%q` applied to a string operand: `strconv.Quote` of it. -/
def verbQ (isPrintTable : Nat → Bool) (s : String) : String :=
  strconv.Quote isPrintTable s

end fmt

/-! ## Types of the packages the bridge targets -/

namespace model

/-- Type `model.LabelSet` (a `map[LabelName]LabelValue`, both string types):
a finite map from strings to strings, equal to another one exactly when both
hold the same pairs. -/
abbrev LabelSet := Finmap (fun _ : String => String)

end model

namespace scrapeconfig

/-- Type `scrapeconfig.SyslogFormat`, with the two values the bridge uses. -/
inductive SyslogFormat where
  | SyslogFormatRFC3164 : SyslogFormat
  | SyslogFormatRFC5424 : SyslogFormat
  deriving DecidableEq, Repr

/-- Record `scrapeconfig.SyslogTargetConfig`, the parameters handed to the
listener runtime.  `PTLS` is the runtime's TLS configuration type. -/
structure SyslogTargetConfig (PTLS : Type) where
  ListenAddress : String
  ListenProtocol : String
  IdleTimeout : Int
  LabelStructuredData : Bool
  Labels : model.LabelSet
  UseIncomingTimestamp : Bool
  UseRFC5424Message : Bool
  MaxMessageLength : Int
  TLSConfig : PTLS
  SyslogFormat : SyslogFormat

end scrapeconfig

/-! ## Package `syslog` -/

namespace syslog

/-- A modern Syslog RFC. -/
def SyslogFormatRFC5424 : String := "rfc5424"

/-- A legacy Syslog RFC also known as BSD-syslog. -/
def SyslogFormatRFC3164 : String := "rfc3164"

/-- Record `ListenerConfig`: a syslog listener.  `TLS` is the type
`config.TLSConfig` of the TLS block. -/
structure ListenerConfig (TLS : Type) where
  ListenAddress : String
  ListenProtocol : String
  IdleTimeout : Int
  LabelStructuredData : Bool
  Labels : GoMap
  UseIncomingTimestamp : Bool
  UseRFC5424Message : Bool
  MaxMessageLength : Int
  TLSConfig : TLS
  SyslogFormat : String

namespace st

/-- Modelled from the spec: the constant `DefaultProtocol` of the package
`internal/syslogtarget`, whose declaration is not part of the sources at hand.
The spec gives the default as `listenProtocol = tcp`. -/
def DefaultProtocol : String := "tcp"

end st

section defaults

variable {TLS : Type} [Inhabited TLS]
variable (DefaultIdleTimeout DefaultMaxMessageLength : Int)

/-- The default arguments for a syslog listener.  The constants
`st.DefaultIdleTimeout` and `st.DefaultMaxMessageLength` of the runtime are
parameters; the fields the composite literal leaves out take Go's zero value
(`default` for the TLS block). -/
def DefaultListenerConfig : ListenerConfig TLS where
  ListenAddress := ""
  ListenProtocol := st.DefaultProtocol
  IdleTimeout := DefaultIdleTimeout
  LabelStructuredData := false
  Labels := GoMap.nil
  UseIncomingTimestamp := false
  UseRFC5424Message := false
  MaxMessageLength := DefaultMaxMessageLength
  TLSConfig := default
  SyslogFormat := SyslogFormatRFC5424

/-- Method `SetToDefault`: `*sc = DefaultListenerConfig`.  The record after the
call is returned. -/
def SetToDefault (_sc : ListenerConfig TLS) : ListenerConfig TLS :=
  DefaultListenerConfig DefaultIdleTimeout DefaultMaxMessageLength

end defaults

section validate

variable {TLS : Type}

/-- Method `Validate`.  `isPrintTable` stands for the Unicode tables behind the
`%q` verb. -/
def Validate (isPrintTable : Nat → Bool) (sc : ListenerConfig TLS) : Option String :=
  if sc.ListenProtocol ≠ "tcp" ∧ sc.ListenProtocol ≠ "udp" then
    some ("syslog listener protocol should be either 'tcp' or 'udp', got "
      ++ fmt.verbS sc.ListenProtocol)
  else if sc.SyslogFormat ≠ SyslogFormatRFC3164 ∧ sc.SyslogFormat ≠ SyslogFormatRFC5424 then
    some ("syslog format should be either " ++ fmt.verbQ isPrintTable SyslogFormatRFC3164
      ++ " or " ++ fmt.verbQ isPrintTable SyslogFormatRFC5424
      ++ ", got " ++ fmt.verbQ isPrintTable sc.SyslogFormat)
  else
    none

end validate

section convert

variable {TLS PTLS : Type}

/-- The loop `for k, v := range sc.Labels` of `Convert`, started from the
empty label set `make(model.LabelSet, len(sc.Labels))`. -/
def convertLabels (labels : GoMap) : model.LabelSet :=
  labels.range.foldl (fun lbls kv => lbls.insert kv.1 kv.2) ∅

/-- The `if` / `else if` / `else` of `Convert` choosing the runtime format;
the last branch panics. -/
def convertFormat (syslogFormat : String) : Except String scrapeconfig.SyslogFormat :=
  if syslogFormat = SyslogFormatRFC3164 then
    .ok scrapeconfig.SyslogFormat.SyslogFormatRFC3164
  else if syslogFormat = SyslogFormatRFC5424 then
    .ok scrapeconfig.SyslogFormat.SyslogFormatRFC5424
  else
    .error ("unknown syslog format " ++ syslogFormat)

/-- Method `Convert`, the bridge between the Alloy and Promtail types.
`tlsConvert` is the method `config.TLSConfig.Convert` followed by the
dereference of its result, taken as a total function. -/
def Convert (tlsConvert : TLS → PTLS) (sc : ListenerConfig TLS) :
    Except String (scrapeconfig.SyslogTargetConfig PTLS) :=
  let lbls := convertLabels sc.Labels
  match convertFormat sc.SyslogFormat with
  | .error msg => .error msg
  | .ok syslogFormat =>
    .ok {
      ListenAddress := sc.ListenAddress
      ListenProtocol := sc.ListenProtocol
      IdleTimeout := sc.IdleTimeout
      LabelStructuredData := sc.LabelStructuredData
      Labels := lbls
      UseIncomingTimestamp := sc.UseIncomingTimestamp
      UseRFC5424Message := sc.UseRFC5424Message
      MaxMessageLength := sc.MaxMessageLength
      TLSConfig := tlsConvert sc.TLSConfig
      SyslogFormat := syslogFormat }

end convert

end syslog


/-! ## Sample inputs -/

namespace syslog

/-- A stand-in for the Unicode tables of `strconv.IsPrint`: nothing above
U+00FF is printable. -/
def sampleTable : Nat → Bool := fun _ => false

/-- A stand-in for the TLS adapter on a TLS block without content. -/
def sampleTLSConvert : Unit → Unit := fun _ => ()

/-- The labels `a = 1`, `b = 2`. -/
def sampleLabels : AList (fun _ : String => String) :=
  ⟨[⟨"a", "1"⟩, ⟨"b", "2"⟩], by simp [List.nodupKeys_cons]⟩

/-- A listener on `0.0.0.0:514`, `udp`, `rfc3164`, with two labels. -/
def sampleConfig : ListenerConfig Unit where
  ListenAddress := "0.0.0.0:514"
  ListenProtocol := "udp"
  IdleTimeout := 120000000000
  LabelStructuredData := true
  Labels := GoMap.alloc sampleLabels
  UseIncomingTimestamp := false
  UseRFC5424Message := true
  MaxMessageLength := 8192
  TLSConfig := ()
  SyslogFormat := "rfc3164"

/-- A record with the same two enum fields as `sampleConfig` and every other
field different: empty address, negative timeout and length, nil labels. -/
def sampleBareConfig : ListenerConfig Unit where
  ListenAddress := ""
  ListenProtocol := "udp"
  IdleTimeout := -1
  LabelStructuredData := false
  Labels := GoMap.nil
  UseIncomingTimestamp := true
  UseRFC5424Message := false
  MaxMessageLength := -5
  TLSConfig := ()
  SyslogFormat := "rfc3164"

/-- The record of the scenario `protocol = "http"`: a bad protocol with a legal
syslog format. -/
def httpConfig : ListenerConfig Unit :=
  { sampleBareConfig with ListenProtocol := "http", SyslogFormat := "rfc5424" }

/-- A record with a legal protocol and the unknown syslog format `rfc5425`. -/
def badFormatConfig : ListenerConfig Unit :=
  { sampleBareConfig with ListenProtocol := "tcp", SyslogFormat := "rfc5425" }

/-- The zero value of `ListenerConfig`, what a freshly declared record holds:
empty strings, zero numbers, `false`, the nil map and the zero TLS block. -/
def zeroListenerConfig {TLS : Type} [Inhabited TLS] : ListenerConfig TLS where
  ListenAddress := ""
  ListenProtocol := ""
  IdleTimeout := 0
  LabelStructuredData := false
  Labels := GoMap.nil
  UseIncomingTimestamp := false
  UseRFC5424Message := false
  MaxMessageLength := 0
  TLSConfig := default
  SyslogFormat := ""

/-- The labels of `sampleLabels`, visited in the other order: `b = 2`, then
`a = 1`. -/
def sampleLabelsSwapped : AList (fun _ : String => String) :=
  ⟨[⟨"b", "2"⟩, ⟨"a", "1"⟩], by simp [List.nodupKeys_cons]⟩

/-- A stand-in for the TLS adapter on a TLS block reduced to its server name:
the runtime block is the name together with a verification flag. -/
def sampleServerNameConvert : String → String × Bool := fun name => (name, true)

/-- A listener on `tcp`, `rfc5424`, whose TLS block names `syslog.example.org`. -/
def tlsSampleConfig : ListenerConfig String where
  ListenAddress := "0.0.0.0:6514"
  ListenProtocol := "tcp"
  IdleTimeout := 60000000000
  LabelStructuredData := false
  Labels := GoMap.alloc sampleLabels
  UseIncomingTimestamp := true
  UseRFC5424Message := false
  MaxMessageLength := 4096
  TLSConfig := "syslog.example.org"
  SyslogFormat := "rfc5424"

/-- A record with a bad protocol and a bad syslog format at once. -/
def doublyBadConfig : ListenerConfig Unit :=
  { sampleBareConfig with ListenProtocol := "TCP", SyslogFormat := "rfc5425" }

end syslog

/-! ## Auxiliary facts -/

namespace syslog

section lemmas

variable {TLS PTLS : Type}

/-- Inserting the entries of a list with distinct keys one after the other:
a key of the list ends up bound to its value in the list, any other key keeps
the binding it had. -/
theorem lookup_foldl_insert (l : List (Sigma (fun _ : String => String)))
    (hl : l.NodupKeys) (acc : model.LabelSet) (k : String) :
    (l.foldl (fun lbls kv => Finmap.insert kv.1 kv.2 lbls) acc).lookup k =
      (match l.dlookup k with
       | some v => some v
       | none => acc.lookup k) := by
  induction l generalizing acc with
  | nil => simp
  | cons hd tl ih =>
    obtain ⟨a, b⟩ := hd
    rw [List.nodupKeys_cons] at hl
    rw [List.foldl_cons, ih hl.2]
    by_cases hk : k = a
    · subst hk
      have hnone : tl.dlookup k = none := List.dlookup_eq_none.mpr hl.1
      simp [hnone, Finmap.lookup_insert]
    · rw [List.dlookup_cons_ne _ _ hk, Finmap.lookup_insert_of_ne _ hk]

/-- The label loop over an allocated map yields the finite map with the same
entries. -/
theorem convertLabels_alloc (m : AList (fun _ : String => String)) :
    convertLabels (GoMap.alloc m) = m.toFinmap := by
  apply Finmap.ext_lookup
  intro k
  unfold convertLabels GoMap.range
  rw [lookup_foldl_insert _ m.nodupKeys, Finmap.lookup_toFinmap, Finmap.lookup_empty]
  unfold AList.lookup
  cases List.dlookup k m.entries <;> rfl

/-- The label loop over the nil map yields the empty label set. -/
theorem convertLabels_nil : convertLabels GoMap.nil = ∅ := rfl

/-- The converted label set binds exactly what the map binds. -/
theorem lookup_convertLabels (labels : GoMap) (k : String) :
    (convertLabels labels).lookup k = labels.lookup k := by
  cases labels with
  | nil => simp [convertLabels_nil, GoMap.lookup]
  | alloc m => simp [convertLabels_alloc, GoMap.lookup]

/-- The converted label set has as many entries as the map. -/
theorem card_convertLabels (labels : GoMap) :
    (convertLabels labels).keys.card = labels.len := by
  cases labels with
  | nil => simp [convertLabels_nil, GoMap.len, GoMap.range]
  | alloc m =>
    rw [convertLabels_alloc]
    show Multiset.card (Finmap.keys m.toFinmap).val = _
    rw [Finmap.keys_val]
    simp [GoMap.len, GoMap.range, AList.keys, List.keys]

/-- The result of `Convert` when the format is one of the two known ones. -/
theorem Convert_of_format (tlsConvert : TLS → PTLS) (sc : ListenerConfig TLS)
    (fmt : scrapeconfig.SyslogFormat) (h : convertFormat sc.SyslogFormat = .ok fmt) :
    Convert tlsConvert sc = .ok {
      ListenAddress := sc.ListenAddress
      ListenProtocol := sc.ListenProtocol
      IdleTimeout := sc.IdleTimeout
      LabelStructuredData := sc.LabelStructuredData
      Labels := convertLabels sc.Labels
      UseIncomingTimestamp := sc.UseIncomingTimestamp
      UseRFC5424Message := sc.UseRFC5424Message
      MaxMessageLength := sc.MaxMessageLength
      TLSConfig := tlsConvert sc.TLSConfig
      SyslogFormat := fmt } := by
  unfold Convert
  rw [h]

/-- `Convert` panics exactly when choosing the format does, with the same
message. -/
theorem Convert_error_iff (tlsConvert : TLS → PTLS) (sc : ListenerConfig TLS) (msg : String) :
    Convert tlsConvert sc = .error msg ↔ convertFormat sc.SyslogFormat = .error msg := by
  unfold Convert
  cases h : convertFormat sc.SyslogFormat with
  | error m => simp
  | ok f => simp

/-- The format choice on `rfc3164`. -/
theorem convertFormat_rfc3164 : convertFormat "rfc3164" = .ok .SyslogFormatRFC3164 := rfl

/-- The format choice on `rfc5424`. -/
theorem convertFormat_rfc5424 : convertFormat "rfc5424" = .ok .SyslogFormatRFC5424 := rfl

/-- The format choice on any other name panics. -/
theorem convertFormat_other (f : String) (h1 : f ≠ "rfc3164") (h2 : f ≠ "rfc5424") :
    convertFormat f = .error ("unknown syslog format " ++ f) := by
  unfold convertFormat SyslogFormatRFC3164 SyslogFormatRFC5424
  rw [if_neg h1, if_neg h2]

/-- `Validate` accepts exactly the records whose two enum fields are legal. -/
theorem Validate_eq_none_iff (isPrintTable : Nat → Bool) (sc : ListenerConfig TLS) :
    Validate isPrintTable sc = none ↔
      (sc.ListenProtocol = "tcp" ∨ sc.ListenProtocol = "udp") ∧
      (sc.SyslogFormat = "rfc3164" ∨ sc.SyslogFormat = "rfc5424") := by
  unfold Validate SyslogFormatRFC3164 SyslogFormatRFC5424
  by_cases hp : sc.ListenProtocol ≠ "tcp" ∧ sc.ListenProtocol ≠ "udp"
  · rw [if_pos hp]
    simp only [reduceCtorEq, false_iff]
    rintro ⟨h | h, -⟩
    · exact hp.1 h
    · exact hp.2 h
  · rw [if_neg hp]
    by_cases hf : sc.SyslogFormat ≠ "rfc3164" ∧ sc.SyslogFormat ≠ "rfc5424"
    · rw [if_pos hf]
      simp only [reduceCtorEq, false_iff]
      rintro ⟨-, h | h⟩
      · exact hf.1 h
      · exact hf.2 h
    · rw [if_neg hf]
      simp only [true_iff]
      constructor
      · by_contra hc
        exact hp ⟨fun h => hc (Or.inl h), fun h => hc (Or.inr h)⟩
      · by_contra hc
        exact hf ⟨fun h => hc (Or.inl h), fun h => hc (Or.inr h)⟩

/-- The `%q` form of `rfc3164`. -/
theorem Quote_rfc3164 (isPrintTable : Nat → Bool) :
    strconv.Quote isPrintTable "rfc3164" = "\"rfc3164\"" := by
  rfl

/-- The `%q` form of `rfc5424`. -/
theorem Quote_rfc5424 (isPrintTable : Nat → Bool) :
    strconv.Quote isPrintTable "rfc5424" = "\"rfc5424\"" := by
  rfl

/-- The label loop gives the same label set for two visiting orders of the
same entries. -/
theorem convertLabels_perm (m₁ m₂ : AList (fun _ : String => String))
    (h : m₁.entries.Perm m₂.entries) :
    convertLabels (GoMap.alloc m₁) = convertLabels (GoMap.alloc m₂) := by
  rw [convertLabels_alloc, convertLabels_alloc]
  exact AList.toFinmap_eq.2 h

/-- The two error texts of `Validate` differ, whatever values they carry: they
part at their eighth character. -/
theorem protocol_text_ne_format_text (p q : String) :
    "syslog listener protocol should be either 'tcp' or 'udp', got " ++ p ≠
      "syslog format should be either \"rfc3164\" or \"rfc5424\", got " ++ q := by
  intro h
  have h7 := congrArg (fun s : String => s.data[7]?) h
  simp only [String.data_append] at h7
  rw [List.getElem?_append_left (by decide), List.getElem?_append_left (by decide)] at h7
  revert h7
  decide

/-- The result of `Validate` on a record with a bad protocol. -/
theorem Validate_of_bad_protocol (isPrintTable : Nat → Bool) (sc : ListenerConfig TLS)
    (htcp : sc.ListenProtocol ≠ "tcp") (hudp : sc.ListenProtocol ≠ "udp") :
    Validate isPrintTable sc =
      some ("syslog listener protocol should be either 'tcp' or 'udp', got "
        ++ sc.ListenProtocol) := by
  unfold Validate
  rw [if_pos ⟨htcp, hudp⟩]
  rfl

end lemmas

end syslog

/-! ## Validation -/

namespace syslog

/-- C1: `Validate` returns no error if and only if `ListenProtocol` is exactly
`tcp` or `udp` and `SyslogFormat` is exactly `rfc3164` or `rfc5424`; and two
records that agree on these two fields get the same result, whatever their
other fields (which may even be of different TLS block types). -/
theorem Validate_accepts_iff_enums_legal (isPrintTable : Nat → Bool) :
    (∀ (TLS : Type) (c : ListenerConfig TLS),
      Validate isPrintTable c = none ↔
        (c.ListenProtocol = "tcp" ∨ c.ListenProtocol = "udp") ∧
        (c.SyslogFormat = "rfc3164" ∨ c.SyslogFormat = "rfc5424")) ∧
    (∀ (TLS₁ TLS₂ : Type) (c₁ : ListenerConfig TLS₁) (c₂ : ListenerConfig TLS₂),
      c₁.ListenProtocol = c₂.ListenProtocol → c₁.SyslogFormat = c₂.SyslogFormat →
        Validate isPrintTable c₁ = Validate isPrintTable c₂) := by
  refine ⟨fun TLS c => Validate_eq_none_iff isPrintTable c, ?_⟩
  intro TLS₁ TLS₂ c₁ c₂ hp hf
  unfold Validate
  rw [hp, hf]

/-- C1 at `sampleConfig` and `sampleBareConfig`, which share `udp` and
`rfc3164` and differ in every other field: both are accepted. -/
theorem Validate_accepts_iff_enums_legal_witness :
    sampleConfig.ListenProtocol = sampleBareConfig.ListenProtocol ∧
    sampleConfig.SyslogFormat = sampleBareConfig.SyslogFormat ∧
    Validate sampleTable sampleConfig = Validate sampleTable sampleBareConfig ∧
    Validate sampleTable sampleBareConfig = none :=
  ⟨rfl, rfl,
    (Validate_accepts_iff_enums_legal sampleTable).2 Unit Unit sampleConfig sampleBareConfig
      rfl rfl,
    ((Validate_accepts_iff_enums_legal sampleTable).1 Unit sampleBareConfig).2
      ⟨Or.inr rfl, Or.inl rfl⟩⟩

/-- C2: for every string `p` other than `tcp` and `udp`, `Validate` on a record
with `ListenProtocol = p` and `SyslogFormat = "rfc5424"` fails, and the error
text is the invalid-protocol message followed by `p` verbatim. -/
theorem Validate_invalid_protocol {TLS : Type} (isPrintTable : Nat → Bool)
    (c : ListenerConfig TLS) (p : String) (htcp : p ≠ "tcp") (hudp : p ≠ "udp") :
    Validate isPrintTable { c with ListenProtocol := p, SyslogFormat := "rfc5424" } =
      some ("syslog listener protocol should be either 'tcp' or 'udp', got " ++ p) := by
  unfold Validate
  rw [if_pos ⟨htcp, hudp⟩]
  rfl

/-- C2 at `p = "http"`, with the full error text. -/
theorem Validate_invalid_protocol_witness :
    "http" ≠ "tcp" ∧ "http" ≠ "udp" ∧
    Validate sampleTable httpConfig =
      some "syslog listener protocol should be either 'tcp' or 'udp', got http" :=
  ⟨by decide, by decide,
    Validate_invalid_protocol sampleTable sampleBareConfig "http" (by decide) (by decide)⟩

/-- C3: for every string `f` other than `rfc3164` and `rfc5424`, `Validate` on
a record with `ListenProtocol = "tcp"` and `SyslogFormat = f` fails, and the
error text names both legal values and ends with the `%q` form of `f`. -/
theorem Validate_invalid_syslog_format {TLS : Type} (isPrintTable : Nat → Bool)
    (c : ListenerConfig TLS) (f : String) (h3164 : f ≠ "rfc3164") (h5424 : f ≠ "rfc5424") :
    Validate isPrintTable { c with ListenProtocol := "tcp", SyslogFormat := f } =
      some ("syslog format should be either \"rfc3164\" or \"rfc5424\", got "
        ++ strconv.Quote isPrintTable f) := by
  unfold Validate
  rw [if_neg (fun h => h.1 rfl), if_pos ⟨h3164, h5424⟩]
  unfold fmt.verbQ SyslogFormatRFC3164 SyslogFormatRFC5424
  rw [Quote_rfc3164, Quote_rfc5424]
  rfl

/-- C3 at `f = "rfc5425"`, with the full error text. -/
theorem Validate_invalid_syslog_format_witness :
    "rfc5425" ≠ "rfc3164" ∧ "rfc5425" ≠ "rfc5424" ∧
    Validate sampleTable badFormatConfig =
      some "syslog format should be either \"rfc3164\" or \"rfc5424\", got \"rfc5425\"" :=
  ⟨by decide, by decide,
    Validate_invalid_syslog_format sampleTable sampleBareConfig "rfc5425" (by decide)
      (by decide)⟩

end syslog

/-! ## Conversion -/

namespace syslog

/-- C4, as stated, fails at `httpConfig`: `Validate` rejects it with the
invalid-protocol error, yet `Convert` returns runtime parameters, with the
protocol `http` copied into them. -/
theorem Convert_of_rejected_protocol_returns :
    Validate sampleTable httpConfig =
      some "syslog listener protocol should be either 'tcp' or 'udp', got http" ∧
    ∃ r, Convert sampleTLSConvert httpConfig = .ok r ∧ r.ListenProtocol = "http" :=
  ⟨rfl, _, rfl, rfl⟩

/-- C4, amended: among the records `Validate` rejects, `Convert` aborts on
exactly those whose `SyslogFormat` is neither `rfc3164` nor `rfc5424`; a
record rejected only for its `ListenProtocol` is converted, with the protocol
copied unchanged. -/
theorem Convert_of_rejected {TLS PTLS : Type} (isPrintTable : Nat → Bool)
    (tlsConvert : TLS → PTLS) (c : ListenerConfig TLS) (e : String)
    (hrej : Validate isPrintTable c = some e) :
    ((c.SyslogFormat ≠ "rfc3164" ∧ c.SyslogFormat ≠ "rfc5424") →
      Convert tlsConvert c = .error ("unknown syslog format " ++ c.SyslogFormat) ∧
      ∀ r, Convert tlsConvert c ≠ .ok r) ∧
    ((c.SyslogFormat = "rfc3164" ∨ c.SyslogFormat = "rfc5424") →
      (c.ListenProtocol ≠ "tcp" ∧ c.ListenProtocol ≠ "udp") ∧
      ∃ r, Convert tlsConvert c = .ok r ∧ r.ListenProtocol = c.ListenProtocol) := by
  constructor
  · rintro ⟨h1, h2⟩
    have herr := (Convert_error_iff tlsConvert c _).2 (convertFormat_other _ h1 h2)
    refine ⟨herr, fun r hr => ?_⟩
    rw [herr] at hr
    exact Except.noConfusion hr
  · intro hf
    have hp : c.ListenProtocol ≠ "tcp" ∧ c.ListenProtocol ≠ "udp" := by
      constructor
      · intro h
        have hnone := (Validate_eq_none_iff isPrintTable c).2 ⟨Or.inl h, hf⟩
        rw [hnone] at hrej
        exact Option.noConfusion hrej
      · intro h
        have hnone := (Validate_eq_none_iff isPrintTable c).2 ⟨Or.inr h, hf⟩
        rw [hnone] at hrej
        exact Option.noConfusion hrej
    refine ⟨hp, ?_⟩
    rcases hf with h | h
    · exact ⟨_, Convert_of_format tlsConvert c _ (by rw [h]; rfl), rfl⟩
    · exact ⟨_, Convert_of_format tlsConvert c _ (by rw [h]; rfl), rfl⟩

/-- C4 amended, at `badFormatConfig` (rejected, and aborted by `Convert`). -/
theorem Convert_of_rejected_witness :
    Validate sampleTable badFormatConfig =
      some "syslog format should be either \"rfc3164\" or \"rfc5424\", got \"rfc5425\"" ∧
    Convert sampleTLSConvert badFormatConfig = .error "unknown syslog format rfc5425" :=
  ⟨rfl,
    ((Convert_of_rejected sampleTable sampleTLSConvert badFormatConfig _ rfl).1
      ⟨by decide, by decide⟩).1⟩

/-- C5: for every record `Validate` accepts, `Convert` returns runtime
parameters and does not panic (the TLS adapter being total). -/
theorem Convert_of_accepted_returns {TLS PTLS : Type} (isPrintTable : Nat → Bool)
    (tlsConvert : TLS → PTLS) (c : ListenerConfig TLS)
    (hacc : Validate isPrintTable c = none) :
    (∃ r, Convert tlsConvert c = .ok r) ∧
    Convert tlsConvert c ≠ .error ("unknown syslog format " ++ c.SyslogFormat) ∧
    ∀ msg, Convert tlsConvert c ≠ .error msg := by
  have hf := ((Validate_eq_none_iff isPrintTable c).1 hacc).2
  have hok : ∃ r, Convert tlsConvert c = .ok r := by
    rcases hf with h | h
    · exact ⟨_, Convert_of_format tlsConvert c _ (by rw [h]; rfl)⟩
    · exact ⟨_, Convert_of_format tlsConvert c _ (by rw [h]; rfl)⟩
  obtain ⟨r, hr⟩ := hok
  refine ⟨⟨r, hr⟩, ?_, ?_⟩
  · rw [hr]
    exact fun h => Except.noConfusion h
  · intro msg
    rw [hr]
    exact fun h => Except.noConfusion h

/-- C5 at `sampleConfig`. -/
theorem Convert_of_accepted_returns_witness :
    Validate sampleTable sampleConfig = none ∧
    (∃ r, Convert sampleTLSConvert sampleConfig = .ok r) ∧
    ∀ msg, Convert sampleTLSConvert sampleConfig ≠ .error msg :=
  ⟨rfl, (Convert_of_accepted_returns sampleTable sampleTLSConvert sampleConfig rfl).1,
    (Convert_of_accepted_returns sampleTable sampleTLSConvert sampleConfig rfl).2.2⟩

/-- C6: a record with `SyslogFormat = "rfc3164"` converts to parameters whose
format is the runtime value RFC3164, one with `"rfc5424"` to parameters whose
format is RFC5424; and the outcome of the format mapping is the same for any
two records with the same `SyslogFormat`, whatever their other fields and the
TLS adapter. -/
theorem Convert_format_mapping :
    (∀ (TLS PTLS : Type) (tlsConvert : TLS → PTLS) (c : ListenerConfig TLS),
      c.SyslogFormat = "rfc3164" →
        ∃ r, Convert tlsConvert c = .ok r ∧
          r.SyslogFormat = scrapeconfig.SyslogFormat.SyslogFormatRFC3164) ∧
    (∀ (TLS PTLS : Type) (tlsConvert : TLS → PTLS) (c : ListenerConfig TLS),
      c.SyslogFormat = "rfc5424" →
        ∃ r, Convert tlsConvert c = .ok r ∧
          r.SyslogFormat = scrapeconfig.SyslogFormat.SyslogFormatRFC5424) ∧
    (∀ (TLS₁ PTLS₁ TLS₂ PTLS₂ : Type) (tlsConvert₁ : TLS₁ → PTLS₁)
      (tlsConvert₂ : TLS₂ → PTLS₂) (c₁ : ListenerConfig TLS₁) (c₂ : ListenerConfig TLS₂),
      c₁.SyslogFormat = c₂.SyslogFormat →
        (Convert tlsConvert₁ c₁).map (fun r => r.SyslogFormat) =
          (Convert tlsConvert₂ c₂).map (fun r => r.SyslogFormat)) := by
  refine ⟨?_, ?_, ?_⟩
  · intro TLS PTLS tlsConvert c h
    exact ⟨_, Convert_of_format tlsConvert c _ (by rw [h]; rfl), rfl⟩
  · intro TLS PTLS tlsConvert c h
    exact ⟨_, Convert_of_format tlsConvert c _ (by rw [h]; rfl), rfl⟩
  · intro TLS₁ PTLS₁ TLS₂ PTLS₂ tlsConvert₁ tlsConvert₂ c₁ c₂ h
    unfold Convert
    rw [h]
    cases convertFormat c₂.SyslogFormat <;> rfl

/-- C6 at `sampleConfig` (`rfc3164`) and at `httpConfig` (`rfc5424`). -/
theorem Convert_format_mapping_witness :
    sampleConfig.SyslogFormat = "rfc3164" ∧
    (∃ r, Convert sampleTLSConvert sampleConfig = .ok r ∧
      r.SyslogFormat = scrapeconfig.SyslogFormat.SyslogFormatRFC3164) ∧
    httpConfig.SyslogFormat = "rfc5424" ∧
    (∃ r, Convert sampleTLSConvert httpConfig = .ok r ∧
      r.SyslogFormat = scrapeconfig.SyslogFormat.SyslogFormatRFC5424) :=
  ⟨rfl, Convert_format_mapping.1 Unit Unit sampleTLSConvert sampleConfig rfl,
    rfl, Convert_format_mapping.2.1 Unit Unit sampleTLSConvert httpConfig rfl⟩

end syslog

namespace syslog

/-- C7: for every record `Validate` accepts, `Convert` returns parameters whose
`ListenAddress`, `ListenProtocol`, `IdleTimeout`, `LabelStructuredData`,
`UseIncomingTimestamp`, `UseRFC5424Message` and `MaxMessageLength` are those of
the record. -/
theorem Convert_copies_scalars {TLS PTLS : Type} (isPrintTable : Nat → Bool)
    (tlsConvert : TLS → PTLS) (c : ListenerConfig TLS)
    (hacc : Validate isPrintTable c = none) :
    ∃ r, Convert tlsConvert c = .ok r ∧
      r.ListenAddress = c.ListenAddress ∧
      r.ListenProtocol = c.ListenProtocol ∧
      r.IdleTimeout = c.IdleTimeout ∧
      r.LabelStructuredData = c.LabelStructuredData ∧
      r.UseIncomingTimestamp = c.UseIncomingTimestamp ∧
      r.UseRFC5424Message = c.UseRFC5424Message ∧
      r.MaxMessageLength = c.MaxMessageLength := by
  rcases ((Validate_eq_none_iff isPrintTable c).1 hacc).2 with h | h
  · exact ⟨_, Convert_of_format tlsConvert c _ (by rw [h]; rfl),
      rfl, rfl, rfl, rfl, rfl, rfl, rfl⟩
  · exact ⟨_, Convert_of_format tlsConvert c _ (by rw [h]; rfl),
      rfl, rfl, rfl, rfl, rfl, rfl, rfl⟩

/-- C7 at `sampleConfig`, with the copied values spelled out. -/
theorem Convert_copies_scalars_witness :
    Validate sampleTable sampleConfig = none ∧
    ∃ r, Convert sampleTLSConvert sampleConfig = .ok r ∧
      r.ListenAddress = "0.0.0.0:514" ∧
      r.ListenProtocol = "udp" ∧
      r.IdleTimeout = 120000000000 ∧
      r.LabelStructuredData = true ∧
      r.UseIncomingTimestamp = false ∧
      r.UseRFC5424Message = true ∧
      r.MaxMessageLength = 8192 :=
  ⟨rfl, Convert_copies_scalars sampleTable sampleTLSConvert sampleConfig rfl⟩

/-- C8: for every record `Validate` accepts, `Convert` returns parameters whose
label set maps `k` to `v` if and only if the record's `Labels` does, and has as
many entries as `Labels`; a nil or empty `Labels` map gives the empty label
set. -/
theorem Convert_preserves_labels {TLS PTLS : Type} (isPrintTable : Nat → Bool)
    (tlsConvert : TLS → PTLS) (c : ListenerConfig TLS)
    (hacc : Validate isPrintTable c = none) :
    ∃ r, Convert tlsConvert c = .ok r ∧
      (∀ k v, r.Labels.lookup k = some v ↔ c.Labels.lookup k = some v) ∧
      r.Labels.keys.card = c.Labels.len ∧
      (c.Labels.len = 0 → r.Labels = ∅) := by
  have hlab : ∀ (r : scrapeconfig.SyslogTargetConfig PTLS),
      r.Labels = convertLabels c.Labels →
      (∀ k v, r.Labels.lookup k = some v ↔ c.Labels.lookup k = some v) ∧
      r.Labels.keys.card = c.Labels.len ∧
      (c.Labels.len = 0 → r.Labels = ∅) := by
    intro r hr
    refine ⟨fun k v => by rw [hr, lookup_convertLabels], by rw [hr, card_convertLabels], ?_⟩
    intro h0
    rw [hr]
    apply Finmap.ext_lookup
    intro k
    rw [lookup_convertLabels, Finmap.lookup_empty]
    cases hm : c.Labels with
    | nil => rfl
    | alloc m =>
      rw [hm] at h0
      have hnil : m.entries = [] := List.length_eq_zero.mp h0
      show List.dlookup k m.entries = none
      rw [hnil]
      rfl
  rcases ((Validate_eq_none_iff isPrintTable c).1 hacc).2 with h | h
  · exact ⟨_, Convert_of_format tlsConvert c _ (by rw [h]; rfl), hlab _ rfl⟩
  · exact ⟨_, Convert_of_format tlsConvert c _ (by rw [h]; rfl), hlab _ rfl⟩

/-- C8 at `sampleConfig`, whose labels are `a = 1` and `b = 2`: the converted
label set has two entries and binds what `sampleLabels` binds. -/
theorem Convert_preserves_labels_witness :
    Validate sampleTable sampleConfig = none ∧
    sampleConfig.Labels.len = 2 ∧
    sampleConfig.Labels.lookup "a" = some "1" ∧
    sampleConfig.Labels.lookup "b" = some "2" ∧
    ∃ r, Convert sampleTLSConvert sampleConfig = .ok r ∧
      (∀ k v, r.Labels.lookup k = some v ↔ sampleConfig.Labels.lookup k = some v) ∧
      r.Labels.keys.card = sampleConfig.Labels.len ∧
      (sampleConfig.Labels.len = 0 → r.Labels = ∅) :=
  ⟨rfl, rfl, by decide, by decide,
    Convert_preserves_labels sampleTable sampleTLSConvert sampleConfig rfl⟩

/-- C9: on a record whose `SyslogFormat` is neither `rfc3164` nor `rfc5424`,
`Convert` panics with `unknown syslog format ` followed by the format and
returns no parameters; and `Convert` panics only on such records, and only
with that message. -/
theorem Convert_panics_iff_unknown_format {TLS PTLS : Type} (tlsConvert : TLS → PTLS)
    (c : ListenerConfig TLS) :
    ((c.SyslogFormat ≠ "rfc3164" ∧ c.SyslogFormat ≠ "rfc5424") →
      Convert tlsConvert c = .error ("unknown syslog format " ++ c.SyslogFormat) ∧
      ∀ r, Convert tlsConvert c ≠ .ok r) ∧
    (∀ msg, Convert tlsConvert c = .error msg →
      (c.SyslogFormat ≠ "rfc3164" ∧ c.SyslogFormat ≠ "rfc5424") ∧
      msg = "unknown syslog format " ++ c.SyslogFormat) := by
  constructor
  · rintro ⟨h1, h2⟩
    have herr := (Convert_error_iff tlsConvert c _).2 (convertFormat_other _ h1 h2)
    refine ⟨herr, fun r hr => ?_⟩
    rw [herr] at hr
    exact Except.noConfusion hr
  · intro msg hmsg
    have hfmt := (Convert_error_iff tlsConvert c msg).1 hmsg
    by_cases h1 : c.SyslogFormat = "rfc3164"
    · rw [h1, convertFormat_rfc3164] at hfmt
      exact Except.noConfusion hfmt
    · by_cases h2 : c.SyslogFormat = "rfc5424"
      · rw [h2, convertFormat_rfc5424] at hfmt
        exact Except.noConfusion hfmt
      · refine ⟨⟨h1, h2⟩, ?_⟩
        rw [convertFormat_other _ h1 h2] at hfmt
        exact (Except.error.inj hfmt).symm

/-- C9 at `badFormatConfig`, with the full panic text. -/
theorem Convert_panics_iff_unknown_format_witness :
    badFormatConfig.SyslogFormat ≠ "rfc3164" ∧ badFormatConfig.SyslogFormat ≠ "rfc5424" ∧
    Convert sampleTLSConvert badFormatConfig = .error "unknown syslog format rfc5425" ∧
    ∀ r, Convert sampleTLSConvert badFormatConfig ≠ .ok r :=
  ⟨by decide, by decide,
    (Convert_panics_iff_unknown_format sampleTLSConvert badFormatConfig).1
      ⟨by decide, by decide⟩⟩

/-! ## Defaulting -/

/-- C10: after `SetToDefault` the record holds the package defaults:
`ListenProtocol` is the runtime's `DefaultProtocol`, which is `tcp`,
`IdleTimeout` and `MaxMessageLength` are the runtime's `DefaultIdleTimeout` and
`DefaultMaxMessageLength`, and `SyslogFormat` is `rfc5424`. -/
theorem SetToDefault_holds_defaults {TLS : Type} [Inhabited TLS]
    (DefaultIdleTimeout DefaultMaxMessageLength : Int) (c : ListenerConfig TLS) :
    (SetToDefault DefaultIdleTimeout DefaultMaxMessageLength c).ListenProtocol
      = st.DefaultProtocol ∧
    (SetToDefault DefaultIdleTimeout DefaultMaxMessageLength c).ListenProtocol = "tcp" ∧
    (SetToDefault DefaultIdleTimeout DefaultMaxMessageLength c).IdleTimeout
      = DefaultIdleTimeout ∧
    (SetToDefault DefaultIdleTimeout DefaultMaxMessageLength c).MaxMessageLength
      = DefaultMaxMessageLength ∧
    (SetToDefault DefaultIdleTimeout DefaultMaxMessageLength c).SyslogFormat = "rfc5424" :=
  ⟨rfl, rfl, rfl, rfl, rfl⟩

end syslog

namespace syslog

/-- C11: defaulting is idempotent on the zero-valued record: applying
`SetToDefault` twice to it gives the same record, field for field, as applying
it once. -/
theorem SetToDefault_idempotent_on_zero {TLS : Type} [Inhabited TLS]
    (DefaultIdleTimeout DefaultMaxMessageLength : Int) :
    SetToDefault DefaultIdleTimeout DefaultMaxMessageLength
        (SetToDefault DefaultIdleTimeout DefaultMaxMessageLength
          (zeroListenerConfig : ListenerConfig TLS)) =
      SetToDefault DefaultIdleTimeout DefaultMaxMessageLength
        (zeroListenerConfig : ListenerConfig TLS) :=
  rfl

/-- C12: a record obtained by `SetToDefault` followed by overrides of any of
the fields other than `ListenProtocol` and `SyslogFormat` is accepted by
`Validate`; in particular `DefaultListenerConfig` itself is. -/
theorem Validate_accepts_defaulted {TLS : Type} [Inhabited TLS] (isPrintTable : Nat → Bool)
    (DefaultIdleTimeout DefaultMaxMessageLength : Int) :
    (∀ (c : ListenerConfig TLS) (address : String) (idleTimeout : Int)
        (labelStructuredData : Bool) (labels : GoMap) (useIncomingTimestamp : Bool)
        (useRFC5424Message : Bool) (maxMessageLength : Int) (tls : TLS),
      Validate isPrintTable
        { SetToDefault DefaultIdleTimeout DefaultMaxMessageLength c with
          ListenAddress := address
          IdleTimeout := idleTimeout
          LabelStructuredData := labelStructuredData
          Labels := labels
          UseIncomingTimestamp := useIncomingTimestamp
          UseRFC5424Message := useRFC5424Message
          MaxMessageLength := maxMessageLength
          TLSConfig := tls } = none) ∧
    (∀ c : ListenerConfig TLS,
      Validate isPrintTable (SetToDefault DefaultIdleTimeout DefaultMaxMessageLength c) = none) ∧
    Validate isPrintTable
      (DefaultListenerConfig DefaultIdleTimeout DefaultMaxMessageLength : ListenerConfig TLS)
      = none := by
  refine ⟨?_, ?_, ?_⟩
  · intro c address idleTimeout labelStructuredData labels useIncomingTimestamp
      useRFC5424Message maxMessageLength tls
    exact (Validate_eq_none_iff isPrintTable _).2 ⟨Or.inl rfl, Or.inr rfl⟩
  · intro c
    exact (Validate_eq_none_iff isPrintTable _).2 ⟨Or.inl rfl, Or.inr rfl⟩
  · exact (Validate_eq_none_iff isPrintTable _).2 ⟨Or.inl rfl, Or.inr rfl⟩

/-- C13: for every record `Validate` accepts, the TLS block of the parameters
`Convert` returns is the TLS adapter applied to the record's TLS block; so two
accepted records with the same TLS block get the same converted TLS block,
whatever their other fields. -/
theorem Convert_delegates_tls {TLS PTLS : Type} (isPrintTable : Nat → Bool)
    (tlsConvert : TLS → PTLS) (c : ListenerConfig TLS)
    (hacc : Validate isPrintTable c = none) :
    (∃ r, Convert tlsConvert c = .ok r ∧ r.TLSConfig = tlsConvert c.TLSConfig) ∧
    (∀ c₂ : ListenerConfig TLS, Validate isPrintTable c₂ = none →
      c₂.TLSConfig = c.TLSConfig →
        (Convert tlsConvert c₂).map (fun r => r.TLSConfig) =
          (Convert tlsConvert c).map (fun r => r.TLSConfig)) := by
  have key : ∀ d : ListenerConfig TLS, Validate isPrintTable d = none →
      ∃ r, Convert tlsConvert d = .ok r ∧ r.TLSConfig = tlsConvert d.TLSConfig := by
    intro d hd
    rcases ((Validate_eq_none_iff isPrintTable d).1 hd).2 with h | h
    · exact ⟨_, Convert_of_format tlsConvert d _ (by rw [h]; rfl), rfl⟩
    · exact ⟨_, Convert_of_format tlsConvert d _ (by rw [h]; rfl), rfl⟩
  refine ⟨key c hacc, ?_⟩
  intro c₂ hacc₂ htls
  obtain ⟨r, hr, hrt⟩ := key c hacc
  obtain ⟨r₂, hr₂, hrt₂⟩ := key c₂ hacc₂
  rw [hr, hr₂]
  show Except.ok r₂.TLSConfig = Except.ok r.TLSConfig
  rw [hrt, hrt₂, htls]

/-- C13 at `tlsSampleConfig`: the converted TLS block is the adapter's output
on `syslog.example.org`. -/
theorem Convert_delegates_tls_witness :
    Validate sampleTable tlsSampleConfig = none ∧
    ∃ r, Convert sampleServerNameConvert tlsSampleConfig = .ok r ∧
      r.TLSConfig = sampleServerNameConvert "syslog.example.org" :=
  ⟨rfl, (Convert_delegates_tls sampleTable sampleServerNameConvert tlsSampleConfig rfl).1⟩

/-- C14: `Convert` gives equal results on equal records, and its result does
not depend on the order in which the label loop visits the entries: two maps
whose entries are permutations of each other give the same label set, and two
records that differ only by such a reordering give the same result. -/
theorem Convert_pure_and_order_independent {TLS PTLS : Type} (tlsConvert : TLS → PTLS) :
    (∀ c₁ c₂ : ListenerConfig TLS, c₁ = c₂ → Convert tlsConvert c₁ = Convert tlsConvert c₂) ∧
    (∀ m₁ m₂ : AList (fun _ : String => String), m₁.entries.Perm m₂.entries →
      convertLabels (GoMap.alloc m₁) = convertLabels (GoMap.alloc m₂)) ∧
    (∀ (c : ListenerConfig TLS) (m₁ m₂ : AList (fun _ : String => String)),
      m₁.entries.Perm m₂.entries →
        Convert tlsConvert { c with Labels := GoMap.alloc m₁ } =
          Convert tlsConvert { c with Labels := GoMap.alloc m₂ }) := by
  refine ⟨fun c₁ c₂ h => by rw [h], convertLabels_perm, ?_⟩
  intro c m₁ m₂ h
  unfold Convert
  simp only
  rw [convertLabels_perm m₁ m₂ h]

/-- C14 at `sampleConfig`: visiting `a = 1` then `b = 2`, or `b = 2` then
`a = 1`, gives the same result. -/
theorem Convert_pure_and_order_independent_witness :
    sampleLabels.entries.Perm sampleLabelsSwapped.entries ∧
    sampleLabels.entries ≠ sampleLabelsSwapped.entries ∧
    Convert sampleTLSConvert { sampleConfig with Labels := GoMap.alloc sampleLabels } =
      Convert sampleTLSConvert { sampleConfig with Labels := GoMap.alloc sampleLabelsSwapped } :=
  ⟨List.Perm.swap _ _ _, by decide,
    (Convert_pure_and_order_independent sampleTLSConvert).2.2 sampleConfig sampleLabels
      sampleLabelsSwapped (List.Perm.swap _ _ _)⟩

end syslog

namespace syslog

/-- C15: `Validate` stops at the first failing rule.  On a record whose
`ListenProtocol` and `SyslogFormat` are both illegal it returns the
invalid-protocol error, carrying the protocol, and not the invalid-format
error; and it returns the invalid-format error only when the protocol is
legal. -/
theorem Validate_reports_protocol_first {TLS : Type} (isPrintTable : Nat → Bool)
    (c : ListenerConfig TLS) :
    ((c.ListenProtocol ≠ "tcp" ∧ c.ListenProtocol ≠ "udp") →
      (c.SyslogFormat ≠ "rfc3164" ∧ c.SyslogFormat ≠ "rfc5424") →
        Validate isPrintTable c =
          some ("syslog listener protocol should be either 'tcp' or 'udp', got "
            ++ c.ListenProtocol) ∧
        Validate isPrintTable c ≠
          some ("syslog format should be either \"rfc3164\" or \"rfc5424\", got "
            ++ strconv.Quote isPrintTable c.SyslogFormat)) ∧
    (∀ q : String,
      Validate isPrintTable c =
          some ("syslog format should be either \"rfc3164\" or \"rfc5424\", got " ++ q) →
        c.ListenProtocol = "tcp" ∨ c.ListenProtocol = "udp") := by
  constructor
  · rintro ⟨htcp, hudp⟩ -
    have hv := Validate_of_bad_protocol isPrintTable c htcp hudp
    refine ⟨hv, ?_⟩
    rw [hv]
    intro h
    exact protocol_text_ne_format_text _ _ (Option.some.inj h)
  · intro q hq
    by_contra hbad
    have htcp : c.ListenProtocol ≠ "tcp" := fun h => hbad (Or.inl h)
    have hudp : c.ListenProtocol ≠ "udp" := fun h => hbad (Or.inr h)
    rw [Validate_of_bad_protocol isPrintTable c htcp hudp] at hq
    exact protocol_text_ne_format_text _ _ (Option.some.inj hq)

/-- C15 at `doublyBadConfig` (protocol `TCP`, format `rfc5425`): the error is
the protocol one. -/
theorem Validate_reports_protocol_first_witness :
    doublyBadConfig.ListenProtocol ≠ "tcp" ∧ doublyBadConfig.ListenProtocol ≠ "udp" ∧
    doublyBadConfig.SyslogFormat ≠ "rfc3164" ∧ doublyBadConfig.SyslogFormat ≠ "rfc5424" ∧
    Validate sampleTable doublyBadConfig =
      some "syslog listener protocol should be either 'tcp' or 'udp', got TCP" ∧
    Validate sampleTable doublyBadConfig ≠
      some "syslog format should be either \"rfc3164\" or \"rfc5424\", got \"rfc5425\"" :=
  ⟨by decide, by decide, by decide, by decide,
    (Validate_reports_protocol_first sampleTable doublyBadConfig).1
      ⟨by decide, by decide⟩ ⟨by decide, by decide⟩⟩

/-- C16: for every address `a`, the record obtained by `SetToDefault` and then
setting `ListenAddress = a`, `ListenProtocol = "udp"`, `SyslogFormat =
"rfc3164"` is accepted by `Validate`, and `Convert` of it has that address,
protocol `udp`, the runtime format RFC3164 and the default idle timeout and
maximal message length. -/
theorem default_override_validate_convert {TLS PTLS : Type} [Inhabited TLS]
    (isPrintTable : Nat → Bool) (tlsConvert : TLS → PTLS)
    (DefaultIdleTimeout DefaultMaxMessageLength : Int) (c : ListenerConfig TLS) (a : String) :
    Validate isPrintTable
      { SetToDefault DefaultIdleTimeout DefaultMaxMessageLength c with
        ListenAddress := a, ListenProtocol := "udp", SyslogFormat := "rfc3164" } = none ∧
    ∃ r, Convert tlsConvert
        { SetToDefault DefaultIdleTimeout DefaultMaxMessageLength c with
          ListenAddress := a, ListenProtocol := "udp", SyslogFormat := "rfc3164" } = .ok r ∧
      r.ListenAddress = a ∧
      r.ListenProtocol = "udp" ∧
      r.SyslogFormat = scrapeconfig.SyslogFormat.SyslogFormatRFC3164 ∧
      r.IdleTimeout = DefaultIdleTimeout ∧
      r.MaxMessageLength = DefaultMaxMessageLength :=
  ⟨(Validate_eq_none_iff isPrintTable _).2 ⟨Or.inr rfl, Or.inl rfl⟩,
    _, Convert_of_format tlsConvert _ _ convertFormat_rfc3164, rfl, rfl, rfl, rfl, rfl⟩

/-- C16 at `a = "0.0.0.0:514"`, starting from the zero-valued record, with
120 s and 8192 for the two runtime defaults. -/
theorem default_override_validate_convert_witness :
    Validate sampleTable
      { SetToDefault 120000000000 8192 (zeroListenerConfig : ListenerConfig Unit) with
        ListenAddress := "0.0.0.0:514", ListenProtocol := "udp",
        SyslogFormat := "rfc3164" } = none ∧
    ∃ r, Convert sampleTLSConvert
        { SetToDefault 120000000000 8192 (zeroListenerConfig : ListenerConfig Unit) with
          ListenAddress := "0.0.0.0:514", ListenProtocol := "udp",
          SyslogFormat := "rfc3164" } = .ok r ∧
      r.ListenAddress = "0.0.0.0:514" ∧
      r.ListenProtocol = "udp" ∧
      r.SyslogFormat = scrapeconfig.SyslogFormat.SyslogFormatRFC3164 ∧
      r.IdleTimeout = 120000000000 ∧
      r.MaxMessageLength = 8192 :=
  default_override_validate_convert sampleTable sampleTLSConvert 120000000000 8192
    zeroListenerConfig "0.0.0.0:514"

/-- C17: `SetToDefault` overwrites the whole record and ignores its prior
state: on every record the result is `DefaultListenerConfig`, so the address
is empty, the labels are the nil map, the three booleans are `false` and the
TLS block is the zero one; and `SetToDefault` is idempotent on every record. -/
theorem SetToDefault_overwrites {TLS : Type} [Inhabited TLS]
    (DefaultIdleTimeout DefaultMaxMessageLength : Int) (c : ListenerConfig TLS) :
    SetToDefault DefaultIdleTimeout DefaultMaxMessageLength c =
      DefaultListenerConfig DefaultIdleTimeout DefaultMaxMessageLength ∧
    (SetToDefault DefaultIdleTimeout DefaultMaxMessageLength c).ListenAddress = "" ∧
    (SetToDefault DefaultIdleTimeout DefaultMaxMessageLength c).Labels = GoMap.nil ∧
    (SetToDefault DefaultIdleTimeout DefaultMaxMessageLength c).Labels.len = 0 ∧
    (SetToDefault DefaultIdleTimeout DefaultMaxMessageLength c).LabelStructuredData = false ∧
    (SetToDefault DefaultIdleTimeout DefaultMaxMessageLength c).UseIncomingTimestamp = false ∧
    (SetToDefault DefaultIdleTimeout DefaultMaxMessageLength c).UseRFC5424Message = false ∧
    (SetToDefault DefaultIdleTimeout DefaultMaxMessageLength c).TLSConfig = default ∧
    SetToDefault DefaultIdleTimeout DefaultMaxMessageLength
        (SetToDefault DefaultIdleTimeout DefaultMaxMessageLength c) =
      SetToDefault DefaultIdleTimeout DefaultMaxMessageLength c :=
  ⟨rfl, rfl, rfl, rfl, rfl, rfl, rfl, rfl, rfl⟩

end syslog
